import Mathlib

/-!

Shallow embedding of the terrain_renderer repository's render
orchestration core: the math primitives it uses from `glam`, the
`Camera` / `SceneUniform` / `SceneBindGroup` data model (src/render/scene.rs),
the `RenderManager` frame lifecycle (src/render/render_manager.rs), the
`TimeManager` (src/core/time_manager.rs) and the `InputManager`
(src/core/input_manager.rs).

Numeric model: the program's `f32` arithmetic is modelled in exact rational
arithmetic (`ℚ`).  The transcendental operations `f32` supplies (`sin`,
`cos`, the constant π used by `to_radians`) are modelled by an explicit
`FloatOps` parameter carrying arbitrary rational-valued versions of them;
every theorem quantifies over it, and concrete evaluations instantiate it
with a fixed sample.  Decimal literals of the source (0.8, 0.1, ...) are
written as the exact rationals they denote.
-/

namespace TerrainRenderer

/-- Model of `glam::Vec2` (two `f32` components, modelled over `ℚ`). -/
structure Vec2 where
  x : ℚ
  y : ℚ
deriving DecidableEq, Repr

/-- Model of `glam::Vec3`. -/
structure Vec3 where
  x : ℚ
  y : ℚ
  z : ℚ
deriving DecidableEq, Repr

/-- Model of `glam::Vec4`. -/
structure Vec4 where
  x : ℚ
  y : ℚ
  z : ℚ
  w : ℚ
deriving DecidableEq, Repr

/-- Model of `glam::Quat` (x, y, z imaginary parts, w real part). -/
structure Quat where
  x : ℚ
  y : ℚ
  z : ℚ
  w : ℚ
deriving DecidableEq, Repr

/-- Model of `glam::Mat4`, column major exactly as `glam` stores it:
`x_axis` is the first column, and so on. -/
structure Mat4 where
  x_axis : Vec4
  y_axis : Vec4
  z_axis : Vec4
  w_axis : Vec4
deriving DecidableEq, Repr

def Vec2.sub (a b : Vec2) : Vec2 := ⟨a.x - b.x, a.y - b.y⟩

def Vec2.add (a b : Vec2) : Vec2 := ⟨a.x + b.x, a.y + b.y⟩

def Vec2.smul (a : Vec2) (s : ℚ) : Vec2 := ⟨a.x * s, a.y * s⟩

/-- `glam::Vec2::ZERO`. -/
def Vec2.ZERO : Vec2 := ⟨0, 0⟩

/-- `glam::Vec3::ZERO`. -/
def Vec3.ZERO : Vec3 := ⟨0, 0, 0⟩

/-- `glam::Vec3::Z`, the canonical forward axis used for the look direction. -/
def Vec3.Z : Vec3 := ⟨0, 0, 1⟩

def Vec3.add (a b : Vec3) : Vec3 := ⟨a.x + b.x, a.y + b.y, a.z + b.z⟩

def Vec3.smul (a : Vec3) (s : ℚ) : Vec3 := ⟨a.x * s, a.y * s, a.z * s⟩

def Vec3.dot (a b : Vec3) : ℚ := a.x * b.x + a.y * b.y + a.z * b.z

def Vec3.cross (a b : Vec3) : Vec3 :=
  ⟨a.y * b.z - a.z * b.y, a.z * b.x - a.x * b.z, a.x * b.y - a.y * b.x⟩

def Vec4.add (a b : Vec4) : Vec4 := ⟨a.x + b.x, a.y + b.y, a.z + b.z, a.w + b.w⟩

def Vec4.smul (a : Vec4) (s : ℚ) : Vec4 := ⟨a.x * s, a.y * s, a.z * s, a.w * s⟩

/-- `glam::Quat::IDENTITY`. -/
def Quat.IDENTITY : Quat := ⟨0, 0, 0, 1⟩

/-- Model of `glam::Quat::mul_vec3` (the scalar implementation:
`v * (w*w - b·b) + b * (v·b * 2) + (b × v) * (w * 2)` with `b` the
imaginary part). -/
def Quat.mul_vec3 (q : Quat) (rhs : Vec3) : Vec3 :=
  let w := q.w
  let b : Vec3 := ⟨q.x, q.y, q.z⟩
  let b2 := b.dot b
  ((rhs.smul (w * w - b2)).add (b.smul (rhs.dot b * 2))).add
    ((b.cross rhs).smul (w * 2))

/-- `glam::Mat4::IDENTITY`, also `Mat4::default()`. -/
def Mat4.IDENTITY : Mat4 :=
  ⟨⟨1, 0, 0, 0⟩, ⟨0, 1, 0, 0⟩, ⟨0, 0, 1, 0⟩, ⟨0, 0, 0, 1⟩⟩

/-- Model of `glam::Mat4::mul_vec4`: linear combination of the columns. -/
def Mat4.mul_vec4 (m : Mat4) (v : Vec4) : Vec4 :=
  (((m.x_axis.smul v.x).add (m.y_axis.smul v.y)).add (m.z_axis.smul v.z)).add
    (m.w_axis.smul v.w)

/-- Model of `glam::Mat4` matrix product (`self * rhs`, applied column by
column as glam does). -/
def Mat4.mul (m rhs : Mat4) : Mat4 :=
  ⟨m.mul_vec4 rhs.x_axis, m.mul_vec4 rhs.y_axis, m.mul_vec4 rhs.z_axis,
    m.mul_vec4 rhs.w_axis⟩

/-- Determinant of a 3×3 matrix given by rows, helper for `Mat4.inverse`. -/
def det3 (a b c d e f g h i : ℚ) : ℚ :=
  a * (e * i - f * h) - b * (d * i - f * g) + c * (d * h - e * g)

/-- Determinant of the 4×4 matrix (expansion along the first column;
`mIJ` below is column `I`, row `J`, matching glam's destructuring of the
axes in `Mat4::inverse`). -/
def Mat4.det (m : Mat4) : ℚ :=
  let m00 := m.x_axis.x; let m01 := m.x_axis.y; let m02 := m.x_axis.z; let m03 := m.x_axis.w
  let m10 := m.y_axis.x; let m11 := m.y_axis.y; let m12 := m.y_axis.z; let m13 := m.y_axis.w
  let m20 := m.z_axis.x; let m21 := m.z_axis.y; let m22 := m.z_axis.z; let m23 := m.z_axis.w
  let m30 := m.w_axis.x; let m31 := m.w_axis.y; let m32 := m.w_axis.z; let m33 := m.w_axis.w
  m00 * det3 m11 m21 m31 m12 m22 m32 m13 m23 m33
    - m10 * det3 m01 m21 m31 m02 m22 m32 m03 m23 m33
    + m20 * det3 m01 m11 m31 m02 m12 m32 m03 m13 m33
    - m30 * det3 m01 m11 m21 m02 m12 m22 m03 m13 m23

/-- Model of `glam::Mat4::inverse`.  glam computes the classic
adjugate-over-determinant (Cramer) inverse through 2×2 cofactors; in exact
rational arithmetic that is the adjugate formula written here through 3×3
cofactors (the two are the same polynomial identity; `ℚ` division is the
total division with `x / 0 = 0`). -/
def Mat4.inverse (m : Mat4) : Mat4 :=
  let m00 := m.x_axis.x; let m01 := m.x_axis.y; let m02 := m.x_axis.z; let m03 := m.x_axis.w
  let m10 := m.y_axis.x; let m11 := m.y_axis.y; let m12 := m.y_axis.z; let m13 := m.y_axis.w
  let m20 := m.z_axis.x; let m21 := m.z_axis.y; let m22 := m.z_axis.z; let m23 := m.z_axis.w
  let m30 := m.w_axis.x; let m31 := m.w_axis.y; let m32 := m.w_axis.z; let m33 := m.w_axis.w
  let d := m.det
  let c00 := det3 m11 m21 m31 m12 m22 m32 m13 m23 m33
  let c01 := -(det3 m10 m20 m30 m12 m22 m32 m13 m23 m33)
  let c02 := det3 m10 m20 m30 m11 m21 m31 m13 m23 m33
  let c03 := -(det3 m10 m20 m30 m11 m21 m31 m12 m22 m32)
  let c10 := -(det3 m01 m21 m31 m02 m22 m32 m03 m23 m33)
  let c11 := det3 m00 m20 m30 m02 m22 m32 m03 m23 m33
  let c12 := -(det3 m00 m20 m30 m01 m21 m31 m03 m23 m33)
  let c13 := det3 m00 m20 m30 m01 m21 m31 m02 m22 m32
  let c20 := det3 m01 m11 m31 m02 m12 m32 m03 m13 m33
  let c21 := -(det3 m00 m10 m30 m02 m12 m32 m03 m13 m33)
  let c22 := det3 m00 m10 m30 m01 m11 m31 m03 m13 m33
  let c23 := -(det3 m00 m10 m30 m01 m11 m31 m02 m12 m32)
  let c30 := -(det3 m01 m11 m21 m02 m12 m22 m03 m13 m23)
  let c31 := det3 m00 m10 m20 m02 m12 m22 m03 m13 m23
  let c32 := -(det3 m00 m10 m20 m01 m11 m21 m03 m13 m23)
  let c33 := det3 m00 m10 m20 m01 m11 m21 m02 m12 m22
  ⟨⟨c00 / d, c10 / d, c20 / d, c30 / d⟩,
    ⟨c01 / d, c11 / d, c21 / d, c31 / d⟩,
    ⟨c02 / d, c12 / d, c22 / d, c32 / d⟩,
    ⟨c03 / d, c13 / d, c23 / d, c33 / d⟩⟩

/-- Model of `glam::Mat4::from_rotation_translation`: the rotation matrix
built from the quaternion (glam's `Mat3::from_quat` entries) in the first
three columns and the translation in the fourth. -/
def Mat4.from_rotation_translation (rot : Quat) (pos : Vec3) : Mat4 :=
  let x2 := rot.x + rot.x
  let y2 := rot.y + rot.y
  let z2 := rot.z + rot.z
  let xx := rot.x * x2
  let xy := rot.x * y2
  let xz := rot.x * z2
  let yy := rot.y * y2
  let yz := rot.y * z2
  let zz := rot.z * z2
  let wx := rot.w * x2
  let wy := rot.w * y2
  let wz := rot.w * z2
  ⟨⟨1 - (yy + zz), xy + wz, xz - wy, 0⟩,
    ⟨xy - wz, 1 - (xx + zz), yz + wx, 0⟩,
    ⟨xz + wy, yz - wx, 1 - (xx + yy), 0⟩,
    ⟨pos.x, pos.y, pos.z, 1⟩⟩

/-- Rational-valued model of the transcendental `f32` operations the camera
math uses: π (for `f32::to_radians`) and sin/cos (for
`Mat4::perspective_lh`).  Every theorem is parametric in this structure. -/
structure FloatOps where
  pi : ℚ
  sin : ℚ → ℚ
  cos : ℚ → ℚ

/-- Model of `f32::to_radians`: `self * (PI / 180.0)`. -/
def FloatOps.toRadians (F : FloatOps) (deg : ℚ) : ℚ := deg * (F.pi / 180)

/-- Model of `glam::Mat4::perspective_lh`:
`h = cos(fov/2)/sin(fov/2)`, `w = h/aspect`, `r = far/(far - near)`. -/
def Mat4.perspective_lh (F : FloatOps) (fov_y_radians aspect_ratio z_near z_far : ℚ) :
    Mat4 :=
  let sin_fov := F.sin (1 / 2 * fov_y_radians)
  let cos_fov := F.cos (1 / 2 * fov_y_radians)
  let h := cos_fov / sin_fov
  let w := h / aspect_ratio
  let r := z_far / (z_far - z_near)
  ⟨⟨w, 0, 0, 0⟩, ⟨0, h, 0, 0⟩, ⟨0, 0, r, 1⟩, ⟨0, 0, -r * z_near, 0⟩⟩

/-- A fixed sample `FloatOps`, used only to instantiate witnesses and
counterexamples on concrete inputs (the corresponding general statements
are parametric in the `FloatOps`). -/
def F0 : FloatOps := ⟨3, fun _ => 1, fun _ => 1⟩

/-! Camera (src/render/scene.rs, lines 274-413).  The struct keeps the
source's field names; the lazily-caching accessor methods of the source
(`look_dir()`, `view_matrix()`, `proj_matrix()`, `view_proj_matrix()`)
collide with the cache fields of the same names, so the methods carry a
prime: `Camera.view_proj_matrix'` models `Camera::view_proj_matrix()` and
returns the read value together with the mutated receiver (`&mut self`). -/

/-- Model of `Camera` (src/render/scene.rs).  `look_dir`, `view_matrix`,
`proj_matrix` and `view_proj_matrix` are the cached derived values;
`is_dirty` is the staleness flag. -/
structure Camera where
  position : Vec3
  rotation : Quat
  fov : ℚ
  aspect_ratio : ℚ
  near_plane : ℚ
  far_plane : ℚ
  is_dirty : Bool
  look_dir : Vec3
  view_matrix : Mat4
  proj_matrix : Mat4
  view_proj_matrix : Mat4
deriving DecidableEq, Repr

/-- Model of `Camera::new`: caches start at their `Default` values
(`Vec3::ZERO`, `Mat4::IDENTITY` — glam's `Mat4::default()` is the
identity) and `is_dirty` starts `true`. -/
def Camera.new (position : Vec3) (rotation : Quat) (fov aspect_ratio near_plane far_plane : ℚ) :
    Camera :=
  { position, rotation, fov, aspect_ratio, near_plane, far_plane
    is_dirty := true
    look_dir := Vec3.ZERO
    view_matrix := Mat4.IDENTITY
    proj_matrix := Mat4.IDENTITY
    view_proj_matrix := Mat4.IDENTITY }

def Camera.set_position (c : Camera) (position : Vec3) : Camera :=
  { c with position := position, is_dirty := true }

def Camera.set_rotation (c : Camera) (rotation : Quat) : Camera :=
  { c with rotation := rotation, is_dirty := true }

def Camera.set_fov (c : Camera) (fov : ℚ) : Camera :=
  { c with fov := fov, is_dirty := true }

def Camera.set_aspect_ratio (c : Camera) (aspect_ratio : ℚ) : Camera :=
  { c with aspect_ratio := aspect_ratio, is_dirty := true }

def Camera.set_near_plane (c : Camera) (near_plane : ℚ) : Camera :=
  { c with near_plane := near_plane, is_dirty := true }

def Camera.set_far_plane (c : Camera) (far_plane : ℚ) : Camera :=
  { c with far_plane := far_plane, is_dirty := true }

/-- Model of `Camera::update_values`: recomputes the four derived values
together from the raw parameters. -/
def Camera.update_values (F : FloatOps) (c : Camera) : Camera :=
  { c with
    look_dir := c.rotation.mul_vec3 Vec3.Z
    view_matrix := (Mat4.from_rotation_translation c.rotation c.position).inverse
    proj_matrix :=
      Mat4.perspective_lh F (F.toRadians c.fov) c.aspect_ratio c.near_plane c.far_plane
    view_proj_matrix :=
      (Mat4.perspective_lh F (F.toRadians c.fov) c.aspect_ratio c.near_plane
        c.far_plane).mul
        (Mat4.from_rotation_translation c.rotation c.position).inverse }

/-- The common body of the four accessor methods: if stale, recompute all
derived values and clear the flag. -/
def Camera.refresh (F : FloatOps) (c : Camera) : Camera :=
  if c.is_dirty then { c.update_values F with is_dirty := false } else c

/-- Model of `Camera::look_dir()` (value read, mutated receiver). -/
def Camera.look_dir' (F : FloatOps) (c : Camera) : Vec3 × Camera :=
  let c := c.refresh F
  (c.look_dir, c)

/-- Model of `Camera::view_matrix()`. -/
def Camera.view_matrix' (F : FloatOps) (c : Camera) : Mat4 × Camera :=
  let c := c.refresh F
  (c.view_matrix, c)

/-- Model of `Camera::proj_matrix()`. -/
def Camera.proj_matrix' (F : FloatOps) (c : Camera) : Mat4 × Camera :=
  let c := c.refresh F
  (c.proj_matrix, c)

/-- Model of `Camera::view_proj_matrix()`. -/
def Camera.view_proj_matrix' (F : FloatOps) (c : Camera) : Mat4 × Camera :=
  let c := c.refresh F
  (c.view_proj_matrix, c)

/-! Scene uniform data (src/render/scene.rs, lines 16-93).  The `_padding`
fields of the source exist only to satisfy the GPU's 16-byte alignment and
carry no data; they are omitted. -/

/-- Model of `GlobalLight`. -/
structure GlobalLight where
  light_direction : Vec3
  light_color : Vec3
deriving DecidableEq, Repr

/-- `GlobalLight::default()`: direction (-1,-1,-1), color (0.8, 0.48, 0.74). -/
def GlobalLight.default : GlobalLight :=
  ⟨⟨-1, -1, -1⟩, ⟨4 / 5, 12 / 25, 37 / 50⟩⟩

/-- Model of `SceneUniform` (the fixed-layout per-frame record). -/
structure SceneUniform where
  view_proj_matrix : Mat4
  camera_dir : Vec3
  camera_pos : Vec3
  surface_size : Vec2
  camera_near : ℚ
  camera_far : ℚ
  global_light : GlobalLight
  ambient_light : Vec3
  time : ℚ
deriving DecidableEq, Repr

/-- `SceneUniform::default()`: zero everywhere except the identity matrix
(glam's `Mat4::default()`), the default global light and the ambient color
(0.085, 0.245, 0.494); in particular `surface_size` starts at (0,0) and
`time` at 0. -/
def SceneUniform.default : SceneUniform :=
  { view_proj_matrix := Mat4.IDENTITY
    camera_dir := Vec3.ZERO
    camera_pos := Vec3.ZERO
    surface_size := Vec2.ZERO
    camera_near := 0
    camera_far := 0
    global_light := GlobalLight.default
    ambient_light := ⟨17 / 200, 49 / 200, 247 / 500⟩
    time := 0 }

/-! GPU resource handles.  A `wgpu::Texture` is modelled by its descriptor
(format, size, usage flags), which is all the orchestration code observes
of it; views (`TextureView`) are created from a texture alone and are not
modelled separately. -/

/-- The texture formats this program uses: `Depth32Float` for depth
buffers, and the negotiated surface color format (negotiation happens at
the GPU boundary, so the concrete color format is a parameter of
`RenderManager.new`). -/
inductive TextureFormat where
  | Depth32Float
  | Bgra8UnormSrgb
  | Rgba8UnormSrgb
deriving DecidableEq, Repr

/-- `wgpu::TextureUsages` bit values (the ones this program combines). -/
def COPY_SRC : ℕ := 1

def COPY_DST : ℕ := 2

def TEXTURE_BINDING : ℕ := 4

def RENDER_ATTACHMENT : ℕ := 16

/-- Model of a `wgpu::Texture` by its descriptor. -/
structure Texture where
  format : TextureFormat
  width : ℕ
  height : ℕ
  usage : ℕ
deriving DecidableEq, Repr

/-- Model of `create_texture_2d` (src/utils/mod.rs): a 2D texture of the
given format, size and usage (one mip level, one sample, one layer). -/
def create_texture_2d (format : TextureFormat) (width height : ℕ) (usage : ℕ) : Texture :=
  ⟨format, width, height, usage⟩

/-- Model of a `wgpu::BindGroup` built by `SceneBindGroup::create_bind_group`:
it binds the uniform buffer, the sampler and views of the two snapshot
textures, so it is identified by the textures it references. -/
structure BindGroup where
  bound_opaque_texture : Texture
  bound_opaque_depth_texture : Texture
deriving DecidableEq, Repr

/-- Model of `SceneBindGroup` (src/render/scene.rs, lines 95-272): the CPU
copy of the uniform, the two snapshot textures and the lazily built bind
group (`None` when invalidated). -/
structure SceneBindGroup where
  uniform : SceneUniform
  opaque_texture : Texture
  opaque_depth_texture : Texture
  bind_group : Option BindGroup
deriving DecidableEq, Repr

/-- Model of `SceneBindGroup::new`: default uniform, the given snapshot
textures, no bind group built yet. -/
def SceneBindGroup.new (opaque_texture opaque_depth_texture : Texture) : SceneBindGroup :=
  { uniform := SceneUniform.default, opaque_texture, opaque_depth_texture,
    bind_group := none }

/-- Model of `SceneBindGroup::update_uniform`: overwrite the CPU copy (the
matching whole-record GPU buffer write is the same data and is not
modelled separately). -/
def SceneBindGroup.update_uniform (sbg : SceneBindGroup) (uniform : SceneUniform) :
    SceneBindGroup :=
  { sbg with uniform := uniform }

/-- Model of `SceneBindGroup::update_textures`: replace both snapshot
textures (and their views) and drop the cached bind group. -/
def SceneBindGroup.update_textures (sbg : SceneBindGroup)
    (opaque_texture opaque_depth_texture : Texture) : SceneBindGroup :=
  { sbg with
    opaque_texture := opaque_texture
    opaque_depth_texture := opaque_depth_texture
    bind_group := none }

/-- Model of `SceneBindGroup::create_bind_group`. -/
def SceneBindGroup.create_bind_group (sbg : SceneBindGroup) : BindGroup :=
  ⟨sbg.opaque_texture, sbg.opaque_depth_texture⟩

/-- Model of the `BindGroupHelper::bind_group` implementation for
`SceneBindGroup` (build lazily if absent, then return the cached one);
primed because the field `bind_group` keeps the source's name. -/
def SceneBindGroup.bind_group' (sbg : SceneBindGroup) : BindGroup × SceneBindGroup :=
  match sbg.bind_group with
  | some bg => (bg, sbg)
  | none =>
    let bg := sbg.create_bind_group
    (bg, { sbg with bind_group := some bg })

/-! Render manager (src/render/render_manager.rs). -/

/-- Model of `wgpu::Color`. -/
structure Color where
  r : ℚ
  g : ℚ
  b : ℚ
  a : ℚ
deriving DecidableEq, Repr

/-- Model of `RenderSettings`. -/
structure RenderSettings where
  clear_color : Color
  camera_fov : ℚ
  camera_near_plane : ℚ
  camera_far_plane : ℚ
deriving DecidableEq, Repr

/-- `RenderSettings::default()`: black clear color, 60° FOV, near 0.1,
far 100. -/
def RenderSettings.default : RenderSettings :=
  ⟨⟨0, 0, 0, 1⟩, 60, 1 / 10, 100⟩

/-- The part of `wgpu::SurfaceConfiguration` the orchestration observes. -/
structure SurfaceConfiguration where
  format : TextureFormat
  width : ℕ
  height : ℕ
deriving DecidableEq, Repr

/-- Model of `RenderStage` (src/render/renderer.rs). -/
inductive RenderStage where
  | OPAQUE
  | TRANSPARENT
deriving DecidableEq, Repr

/-- Model of a registered `Box<dyn Renderer>`: its declared stage and an
identifier naming the draw commands its `render(context)` records. -/
structure Pass where
  id : ℕ
  stage : RenderStage
deriving DecidableEq, Repr

/-- Model of `RenderManager` (src/render/render_manager.rs).  The
`HashMap<RenderStage, Vec<Box<dyn Renderer>>>` is modelled as a function
into `Option`, `none` meaning the key is absent from the map. -/
structure RenderManager where
  settings : RenderSettings
  surface_config : SurfaceConfiguration
  depth_texture : Texture
  camera : Camera
  scene_bind_group : SceneBindGroup
  renderers_by_stage : RenderStage → Option (List Pass)

/-- Model of the resource-construction part of `RenderManager::new` (the
async adapter/device negotiation is the GPU boundary; the negotiated
surface color format arrives as the `surface_format` parameter, and the
window's inner size as `surface_width`/`surface_height`).  Builds the
surface configuration, the depth texture, the two opaque snapshot
textures, the camera (at the origin, identity rotation, aspect ratio
width/height) and the scene bind group, and seeds the renderer map with
an empty bucket for both stages. -/
def RenderManager.new (settings : RenderSettings) (surface_format : TextureFormat)
    (surface_width surface_height : ℕ) : RenderManager :=
  let surface_config : SurfaceConfiguration :=
    ⟨surface_format, surface_width, surface_height⟩
  let depth_texture :=
    create_texture_2d TextureFormat.Depth32Float surface_width surface_height
      (RENDER_ATTACHMENT ||| COPY_SRC)
  let opaque_texture :=
    create_texture_2d surface_format surface_width surface_height
      (TEXTURE_BINDING ||| COPY_DST)
  let opaque_depth_texture :=
    create_texture_2d TextureFormat.Depth32Float surface_width surface_height
      (TEXTURE_BINDING ||| COPY_DST)
  let camera :=
    Camera.new Vec3.ZERO Quat.IDENTITY settings.camera_fov
      ((surface_width : ℚ) / (surface_height : ℚ)) settings.camera_near_plane
      settings.camera_far_plane
  { settings, surface_config, depth_texture, camera
    scene_bind_group := SceneBindGroup.new opaque_texture opaque_depth_texture
    renderers_by_stage := fun stage =>
      match stage with
      | RenderStage.OPAQUE => some []
      | RenderStage.TRANSPARENT => some [] }

/-- Model of `RenderManager::add_renderer`: if the bucket for the pass's
stage is absent, insert an empty one; then `get_mut(...).unwrap().push(...)`
— the `unwrap` is modelled by `Option`, `none` meaning a panic. -/
def RenderManager.add_renderer (s : RenderManager) (renderer : Pass) :
    Option RenderManager :=
  let m := s.renderers_by_stage
  let m1 : RenderStage → Option (List Pass) :=
    if m renderer.stage = none then
      fun k => if k = renderer.stage then some [] else m k
    else m
  match m1 renderer.stage with
  | none => none
  | some v =>
    some { s with renderers_by_stage :=
      fun k => if k = renderer.stage then some (v ++ [renderer]) else m1 k }

/-- Model of `RenderManager::handle_resize`: return unchanged when either
dimension is zero; otherwise reconfigure the surface, write the surface
size into the scene uniform, recreate the depth texture and both snapshot
textures at the new size (same formats and usages), invalidate the scene
bind group (via `update_textures`) and set the camera aspect ratio to
width/height. -/
def RenderManager.handle_resize (s : RenderManager) (width height : ℕ) : RenderManager :=
  if width = 0 ∨ height = 0 then s
  else
    let surface_config := { s.surface_config with width := width, height := height }
    let sbg := s.scene_bind_group
    let uniform :=
      { sbg.uniform with surface_size := Vec2.mk (width : ℚ) (height : ℚ) }
    let sbg := sbg.update_uniform uniform
    let depth_texture :=
      create_texture_2d s.depth_texture.format width height s.depth_texture.usage
    let opaque_texture :=
      create_texture_2d surface_config.format width height sbg.opaque_texture.usage
    let opaque_depth_texture :=
      create_texture_2d depth_texture.format width height sbg.opaque_depth_texture.usage
    let sbg := sbg.update_textures opaque_texture opaque_depth_texture
    let camera := s.camera.set_aspect_ratio ((width : ℚ) / (height : ℚ))
    { s with surface_config, depth_texture, scene_bind_group := sbg, camera }

/-! Time manager (src/core/time_manager.rs).  `Instant` arithmetic is
modelled by passing `update` the elapsed wall-clock time between the two
most recent updates, in whole milliseconds, exactly what
`duration_since(last_instant).as_millis()` yields. -/

/-- Model of `TimeManager`: the delta computed by the last `update`. -/
structure TimeManager where
  delta : ℚ
deriving DecidableEq, Repr

/-- `TimeManager::new()`: delta starts at 0. -/
def TimeManager.new : TimeManager := ⟨0⟩

/-- Model of `TimeManager::update`: the source computes
`self.instant.duration_since(last_instant).as_millis() as f32 * 1000.0`,
that is the elapsed whole milliseconds MULTIPLIED by 1000. -/
def TimeManager.update (_tm : TimeManager) (elapsed_millis : ℕ) : TimeManager :=
  ⟨(elapsed_millis : ℚ) * 1000⟩

/-- The elapsed wall-clock time between the two updates in seconds, the
unit the frame pacing in `App::update` uses (`min_render_time =
1.0 / target_frame_rate`, compared against `as_secs_f32()`). -/
def elapsed_seconds (elapsed_millis : ℕ) : ℚ := (elapsed_millis : ℚ) / 1000

/-! Frame rendering (src/render/render_manager.rs, `render`).  The GPU
command stream recorded into the frame's single encoder plus the final
queue submission and presentation is modelled as a list of `Cmd`; each
registered pass's `render(context)` contributes the draw commands named by
its id.  `render` returns `none` where the source would panic (a missing
stage bucket), `Except.error` where it returns `Err` (surface image
acquisition failure, modelled by the `acquired` flag of the call). -/

/-- One step of the frame's GPU command sequence. -/
inductive Cmd where
  | clear
  | draw (id : ℕ)
  | copy_textures (source target : Texture)
  | submit
  | present
deriving DecidableEq, Repr

/-- The swapchain texture acquired by `surface.get_current_texture()`,
described by the current surface configuration. -/
def RenderManager.surface_texture (s : RenderManager) : Texture :=
  ⟨s.surface_config.format, s.surface_config.width, s.surface_config.height,
    RENDER_ATTACHMENT ||| COPY_SRC⟩

/-- Model of `RenderManager::render`.  In source order: acquire the
surface image (propagating failure as an error); refresh the scene
uniform from the camera's derived values and accumulate the time delta;
write it; ensure the scene bind group exists; record the clear pass, every
OPAQUE pass's draws, the two snapshot copies (color target into
`opaque_texture`, depth into `opaque_depth_texture`), every TRANSPARENT
pass's draws; submit once and present.  The two stage-bucket `unwrap`s are
the `none` case. -/
def RenderManager.render (F : FloatOps) (acquired : Bool) (s : RenderManager)
    (time_manager : TimeManager) : Option (Except String (RenderManager × List Cmd)) :=
  if acquired = false then
    some (Except.error "failed to acquire the current surface texture")
  else
    let sbg := s.scene_bind_group
    let vp := Camera.view_proj_matrix' F s.camera
    let ld := Camera.look_dir' F vp.2
    let camera := ld.2
    let uniform :=
      { sbg.uniform with
        view_proj_matrix := vp.1
        camera_dir := ld.1
        camera_pos := camera.position
        camera_near := camera.near_plane
        camera_far := camera.far_plane
        time := sbg.uniform.time + time_manager.delta }
    let sbg := sbg.update_uniform uniform
    let sbg := (sbg.bind_group').2
    match s.renderers_by_stage RenderStage.OPAQUE,
        s.renderers_by_stage RenderStage.TRANSPARENT with
    | some os, some ts =>
      let trace :=
        [Cmd.clear]
          ++ os.map (fun r => Cmd.draw r.id)
          ++ [Cmd.copy_textures s.surface_texture sbg.opaque_texture,
              Cmd.copy_textures s.depth_texture sbg.opaque_depth_texture]
          ++ ts.map (fun r => Cmd.draw r.id)
          ++ [Cmd.submit, Cmd.present]
      some (Except.ok ({ s with camera := camera, scene_bind_group := sbg }, trace))
    | _, _ => none

/-- The command trace of a successful frame (`none` when the render
panicked, failed to acquire, or errored). -/
def render_trace (F : FloatOps) (acquired : Bool) (s : RenderManager)
    (time_manager : TimeManager) : Option (List Cmd) :=
  match RenderManager.render F acquired s time_manager with
  | some (Except.ok (_, trace)) => some trace
  | _ => none

/-- The scene uniform held after a successful frame (`none` otherwise). -/
def rendered_uniform (F : FloatOps) (acquired : Bool) (s : RenderManager)
    (time_manager : TimeManager) : Option SceneUniform :=
  match RenderManager.render F acquired s time_manager with
  | some (Except.ok (s1, _)) => some s1.scene_bind_group.uniform
  | _ => none

/-- Both stage buckets of the renderer map are present. -/
def bucketsOk (s : RenderManager) : Prop :=
  (s.renderers_by_stage RenderStage.OPAQUE).isSome = true ∧
    (s.renderers_by_stage RenderStage.TRANSPARENT).isSome = true

instance (s : RenderManager) : Decidable (bucketsOk s) := by
  unfold bucketsOk; infer_instance

/-! Input manager (src/core/input_manager.rs).  Physical keys are the
named key codes the default key sets use; positions arrive as exact
rational pixel coordinates (the source's f64→f32 cast is the identity in
this model). -/

/-- The `winit` physical key codes the default `InputSettings` mention
(plus one unmapped key). -/
inductive PhysicalKey where
  | KeyD
  | ArrowRight
  | KeyA
  | ArrowLeft
  | KeyE
  | KeyW
  | ArrowUp
  | KeyS
  | ArrowDown
  | KeyF
deriving DecidableEq, Repr

/-- Model of `winit::event::ElementState`. -/
inductive ElementState where
  | Pressed
  | Released
deriving DecidableEq, Repr

/-- The part of `winit::event::KeyEvent` the input manager reads. -/
structure KeyEvent where
  physical_key : PhysicalKey
  state : ElementState
deriving DecidableEq, Repr

/-- Model of `InputSettings`. -/
structure InputSettings where
  look_sensitivity : ℚ
  right_keys : List PhysicalKey
  left_keys : List PhysicalKey
  up_keys : List PhysicalKey
  down_keys : List PhysicalKey
  forward_keys : List PhysicalKey
  backward_keys : List PhysicalKey
deriving DecidableEq, Repr

/-- `InputSettings::default()`.  Note the source really does list `KeyD`
(not `KeyQ`) in `down_keys`, overlapping `right_keys`. -/
def InputSettings.default : InputSettings :=
  { look_sensitivity := 1 / 10
    right_keys := [PhysicalKey.KeyD, PhysicalKey.ArrowRight]
    left_keys := [PhysicalKey.KeyA, PhysicalKey.ArrowLeft]
    up_keys := [PhysicalKey.KeyE]
    down_keys := [PhysicalKey.KeyD]
    forward_keys := [PhysicalKey.KeyW, PhysicalKey.ArrowUp]
    backward_keys := [PhysicalKey.KeyS, PhysicalKey.ArrowDown] }

/-- Model of `InputManager`. -/
structure InputManager where
  settings : InputSettings
  last_cursor_pos : Vec2
  move_vector : Vec3
  look_delta : Vec2
deriving DecidableEq, Repr

/-- Model of `InputManager::new`. -/
def InputManager.new (settings : InputSettings) : InputManager :=
  { settings, last_cursor_pos := Vec2.ZERO, move_vector := Vec3.ZERO,
    look_delta := Vec2.ZERO }

/-- Model of `InputManager::handle_keyboard_input`, exactly as written in
the source: on press, the right/left sets drive `x`, the up/down sets
drive `y`, the forward/backward sets drive `z`; on release, right/left
clear `x`, up/down clear `z`, and forward/backward clear `y` (the release
arms really do clear `z` for up/down and `y` for forward/backward). -/
def InputManager.handle_keyboard_input (im : InputManager) (event : KeyEvent) :
    InputManager :=
  let key := event.physical_key
  let s := im.settings
  match event.state with
  | ElementState.Pressed =>
    let mv := im.move_vector
    let mv :=
      if key ∈ s.right_keys then { mv with x := 1 }
      else if key ∈ s.left_keys then { mv with x := -1 }
      else mv
    let mv :=
      if key ∈ s.up_keys then { mv with y := 1 }
      else if key ∈ s.down_keys then { mv with y := -1 }
      else mv
    let mv :=
      if key ∈ s.forward_keys then { mv with z := 1 }
      else if key ∈ s.backward_keys then { mv with z := -1 }
      else mv
    { im with move_vector := mv }
  | ElementState.Released =>
    let mv := im.move_vector
    let mv :=
      if key ∈ s.right_keys ∨ key ∈ s.left_keys then { mv with x := 0 }
      else if key ∈ s.up_keys ∨ key ∈ s.down_keys then { mv with z := 0 }
      else if key ∈ s.forward_keys ∨ key ∈ s.backward_keys then { mv with y := 0 }
      else mv
    { im with move_vector := mv }

/-- Model of `InputManager::handle_cursor_movement`: the look delta is
OVERWRITTEN with the displacement since the previous cursor event scaled
by the sensitivity (not accumulated), and the last cursor position is
updated. -/
def InputManager.handle_cursor_movement (im : InputManager) (cursor_position : Vec2) :
    InputManager :=
  let cursor_pos := cursor_position
  { im with
    look_delta := (cursor_pos.sub im.last_cursor_pos).smul im.settings.look_sensitivity
    last_cursor_pos := cursor_pos }

/-- Model of `InputManager::late_update`: reset the look delta. -/
def InputManager.late_update (im : InputManager) : InputManager :=
  { im with look_delta := Vec2.ZERO }

/-- The look-delta consumption structure of one tick of `App::update`
(src/core/app.rs, lines 148-166): `CameraController::update` reads
`input_manager.look_delta()` (src/controllers/camera_controller.rs, line
46), the frame renders, and then `late_update` resets the delta.  Returns
the value the controller read together with the input state at the start
of the next tick. -/
def App.tick_look_delta (im : InputManager) : Vec2 × InputManager :=
  (im.look_delta, im.late_update)

/-! Concrete sample values used by witnesses and counterexamples. -/

/-- A time manager whose last delta is zero. -/
def tm0 : TimeManager := TimeManager.new

/-- The render manager of the spec's end-to-end scenario: default
settings, an 800×600 sRGB surface, no passes registered yet. -/
def mgr800 : RenderManager :=
  RenderManager.new RenderSettings.default TextureFormat.Bgra8UnormSrgb 800 600

/-- A sample OPAQUE pass. -/
def p1 : Pass := ⟨1, RenderStage.OPAQUE⟩

/-- A sample TRANSPARENT pass. -/
def p2 : Pass := ⟨2, RenderStage.TRANSPARENT⟩

/-- `mgr800` with `p1` then `p2` registered (the `getD` is never taken:
`add_renderer` succeeds on both, as claim C9's theorem proves). -/
def mgr2 : RenderManager :=
  (((mgr800.add_renderer p1).getD mgr800).add_renderer p2).getD mgr800

/-- A camera with the end-to-end scenario's parameters (origin, identity
rotation, 60° FOV, aspect 800/600, near 0.1, far 100). -/
def cam0 : Camera :=
  Camera.new Vec3.ZERO Quat.IDENTITY 60 (4 / 3) (1 / 10) 100

/-- `cam0` after one `view_proj_matrix()` read: its caches are populated
and its staleness flag is clear. -/
def cam0_read : Camera := (Camera.view_proj_matrix' F0 cam0).2

/-- The input manager after two cursor-move events, to (1,0) then (3,0),
with no tick in between. -/
def imC : InputManager :=
  ((InputManager.new InputSettings.default).handle_cursor_movement ⟨1, 0⟩).handle_cursor_movement
    ⟨3, 0⟩

/-! Helper lemmas. -/

/-- Refreshing the camera's caches touches no raw parameter. -/
theorem Camera.refresh_raw (F : FloatOps) (c : Camera) :
    (c.refresh F).position = c.position ∧ (c.refresh F).rotation = c.rotation ∧
      (c.refresh F).fov = c.fov ∧ (c.refresh F).aspect_ratio = c.aspect_ratio ∧
      (c.refresh F).near_plane = c.near_plane ∧ (c.refresh F).far_plane = c.far_plane := by
  unfold Camera.refresh
  by_cases h : c.is_dirty <;> simp [h, Camera.update_values]

/-- A refreshed camera is clean, so refreshing is idempotent. -/
theorem Camera.refresh_idem (F : FloatOps) (c : Camera) :
    (c.refresh F).refresh F = c.refresh F := by
  unfold Camera.refresh
  by_cases h : c.is_dirty <;> simp [h, Camera.update_values]

/-- Building the lazy bind group leaves the snapshot textures and the
uniform alone. -/
theorem SceneBindGroup.bind_group_fields (sbg : SceneBindGroup) :
    (sbg.bind_group').2.opaque_texture = sbg.opaque_texture ∧
      (sbg.bind_group').2.opaque_depth_texture = sbg.opaque_depth_texture ∧
      (sbg.bind_group').2.uniform = sbg.uniform := by
  unfold SceneBindGroup.bind_group'
  cases h : sbg.bind_group <;> simp [SceneBindGroup.create_bind_group]

/-- C4: for every resize event whose width or height is zero,
`handle_resize` returns the state unchanged (the guard returns before
touching the surface configuration, the depth texture, the snapshot
textures, the scene bind group, the Scene Uniform or the camera), and the
model is a total function, so no panic is possible. -/
theorem c4_zero_resize_noop (s : RenderManager) (width height : ℕ)
    (h : width = 0 ∨ height = 0) :
    s.handle_resize width height = s := by
  unfold RenderManager.handle_resize
  rw [if_pos h]

/-- C4 witness: resizing `mgr800` to (0, 600) changes nothing. -/
theorem c4_zero_resize_noop_witness : mgr800.handle_resize 0 600 = mgr800 :=
  c4_zero_resize_noop mgr800 0 600 (Or.inl rfl)

/-- C5: for every resize to (W, H) with W, H > 0, `handle_resize` sets the
camera aspect ratio to exactly W/H, recreates the depth texture and both
opaque snapshot textures at W×H (same formats and usages as before), and
drops the cached scene bind group, which is then rebuilt on its next use
(from the new textures). -/
theorem c5_resize_recreates_targets (s : RenderManager) (width height : ℕ)
    (hw : 0 < width) (hh : 0 < height) :
    (s.handle_resize width height).camera.aspect_ratio = (width : ℚ) / (height : ℚ) ∧
      (s.handle_resize width height).depth_texture =
        create_texture_2d s.depth_texture.format width height s.depth_texture.usage ∧
      (s.handle_resize width height).scene_bind_group.opaque_texture =
        create_texture_2d s.surface_config.format width height
          s.scene_bind_group.opaque_texture.usage ∧
      (s.handle_resize width height).scene_bind_group.opaque_depth_texture =
        create_texture_2d s.depth_texture.format width height
          s.scene_bind_group.opaque_depth_texture.usage ∧
      (s.handle_resize width height).scene_bind_group.bind_group = none ∧
      ((s.handle_resize width height).scene_bind_group.bind_group').2.bind_group =
        some ((s.handle_resize width height).scene_bind_group.create_bind_group) := by
  unfold RenderManager.handle_resize
  rw [if_neg (by omega)]
  refine ⟨rfl, rfl, rfl, rfl, rfl, ?_⟩
  simp [SceneBindGroup.bind_group', SceneBindGroup.update_textures,
    SceneBindGroup.update_uniform]

/-- C5 witness: resizing `mgr800` to 1024×768. -/
theorem c5_resize_recreates_targets_witness :
    (mgr800.handle_resize 1024 768).camera.aspect_ratio = (1024 : ℚ) / (768 : ℚ) ∧
      (mgr800.handle_resize 1024 768).depth_texture =
        create_texture_2d mgr800.depth_texture.format 1024 768 mgr800.depth_texture.usage ∧
      (mgr800.handle_resize 1024 768).scene_bind_group.opaque_texture =
        create_texture_2d mgr800.surface_config.format 1024 768
          mgr800.scene_bind_group.opaque_texture.usage ∧
      (mgr800.handle_resize 1024 768).scene_bind_group.opaque_depth_texture =
        create_texture_2d mgr800.depth_texture.format 1024 768
          mgr800.scene_bind_group.opaque_depth_texture.usage ∧
      (mgr800.handle_resize 1024 768).scene_bind_group.bind_group = none ∧
      ((mgr800.handle_resize 1024 768).scene_bind_group.bind_group').2.bind_group =
        some ((mgr800.handle_resize 1024 768).scene_bind_group.create_bind_group) :=
  c5_resize_recreates_targets mgr800 1024 768 (by omega) (by omega)

/-- C10: for every resize to (W, H) with W, H > 0, the scene uniform after
`handle_resize` is the previous uniform with only `surface_size`
overwritten by (W, H); the view-projection matrix, camera direction and
position, near/far planes, global light, ambient light and time are all
carried over unchanged. -/
theorem c10_resize_uniform_surface_size_only (s : RenderManager) (width height : ℕ)
    (hw : 0 < width) (hh : 0 < height) :
    (s.handle_resize width height).scene_bind_group.uniform =
      { s.scene_bind_group.uniform with
        surface_size := Vec2.mk (width : ℚ) (height : ℚ) } := by
  unfold RenderManager.handle_resize
  rw [if_neg (by omega)]
  simp [SceneBindGroup.update_uniform, SceneBindGroup.update_textures]

/-- C10 witness: resizing `mgr800` to 1024×768 rewrites only the uniform's
surface size. -/
theorem c10_resize_uniform_surface_size_only_witness :
    (mgr800.handle_resize 1024 768).scene_bind_group.uniform =
      { mgr800.scene_bind_group.uniform with
        surface_size := Vec2.mk (1024 : ℚ) (768 : ℚ) } :=
  c10_resize_uniform_surface_size_only mgr800 1024 768 (by omega) (by omega)

/-- C6, failing-input evaluation: with 500 ms of wall-clock time between
the two most recent `TimeManager::update` calls, the delta the uniform's
time field accumulates is 500 × 1000 = 500000, while the elapsed time in
seconds (the unit the frame pacing in `App::update` uses) is 1/2 — the
source multiplies `as_millis()` by 1000 instead of dividing. -/
theorem c6_delta_units_eval :
    (TimeManager.new.update 500).delta = 500000 ∧
      elapsed_seconds 500 = 1 / 2 ∧
      (TimeManager.new.update 500).delta ≠ elapsed_seconds 500 := by
  refine ⟨?_, ?_, ?_⟩ <;>
    norm_num [TimeManager.update, TimeManager.new, elapsed_seconds]

/-- C7, failing-input evaluation: from a fresh input manager with the
default key set, pressing the forward key `KeyW` drives the forward axis
`z` to 1, but then releasing `KeyW` leaves `z` at 1 (the release arm
clears `y` for forward/backward keys), so the movement vector is (0,0,1)
instead of the zero vector the claim requires. -/
theorem c7_forward_release_eval :
    ((InputManager.new InputSettings.default).handle_keyboard_input
        ⟨PhysicalKey.KeyW, ElementState.Pressed⟩).move_vector = Vec3.mk 0 0 1 ∧
      (((InputManager.new InputSettings.default).handle_keyboard_input
            ⟨PhysicalKey.KeyW, ElementState.Pressed⟩).handle_keyboard_input
          ⟨PhysicalKey.KeyW, ElementState.Released⟩).move_vector = Vec3.mk 0 0 1 ∧
      Vec3.mk 0 0 1 ≠ Vec3.ZERO := by
  refine ⟨by decide, by decide, ?_⟩
  simp [Vec3.ZERO]

/-- C8 counterexample: two pointer-motion events arrive between ticks,
(0,0)→(1,0) then (1,0)→(3,0), with sensitivity 0.1.  The sensitivity-scaled
sum of all pointer motion since the previous tick is (3/10, 0), but the
look-delta the next tick reads is (1/5, 0): each cursor event overwrites
the delta instead of accumulating it, so the claim's equality fails. -/
theorem c8_look_delta_counterexample :
    (App.tick_look_delta imC).1 = Vec2.mk (1 / 5) 0 ∧
      ((Vec2.sub ⟨1, 0⟩ ⟨0, 0⟩).add (Vec2.sub ⟨3, 0⟩ ⟨1, 0⟩)).smul (1 / 10) =
        Vec2.mk (3 / 10) 0 ∧
      Vec2.mk (1 / 5) 0 ≠ Vec2.mk (3 / 10) 0 := by
  refine ⟨?_, ?_, ?_⟩ <;>
    norm_num [imC, App.tick_look_delta, InputManager.new, InputSettings.default,
      InputManager.handle_cursor_movement, Vec2.sub, Vec2.add, Vec2.smul, Vec2.ZERO]

/-- C8 amended: the look-delta read by the Camera Controller in a tick is
the sensitivity-scaled displacement of the most recent pointer-motion
event only (each event overwrites the accumulated value rather than adding
to it), and it is reset to zero after consumption, so it is zero at the
start of the next tick when no new pointer motion arrived in between. -/
theorem c8_look_delta_amended (im : InputManager) (p : Vec2) :
    (im.handle_cursor_movement p).look_delta =
        (p.sub im.last_cursor_pos).smul im.settings.look_sensitivity ∧
      (im.handle_cursor_movement p).last_cursor_pos = p ∧
      (App.tick_look_delta im).1 = im.look_delta ∧
      (App.tick_look_delta im).2.look_delta = Vec2.ZERO := by
  refine ⟨rfl, rfl, rfl, rfl⟩

/-- C1: in every frame `render` produces (on a successfully acquired
surface image), the recorded GPU commands are exactly: the clear pass
first, then the draw commands of every OPAQUE-stage pass in registration
order, then the copy of the color target into the opaque snapshot texture
and of the depth target into the opaque depth snapshot texture, then the
draw commands of every TRANSPARENT-stage pass in registration order,
followed by a single submission and the presentation. -/
theorem c1_frame_command_order (F : FloatOps) (tm : TimeManager) (s : RenderManager)
    (os ts : List Pass)
    (hop : s.renderers_by_stage RenderStage.OPAQUE = some os)
    (htr : s.renderers_by_stage RenderStage.TRANSPARENT = some ts) :
    render_trace F true s tm =
      some ([Cmd.clear]
        ++ os.map (fun r => Cmd.draw r.id)
        ++ [Cmd.copy_textures s.surface_texture s.scene_bind_group.opaque_texture,
            Cmd.copy_textures s.depth_texture s.scene_bind_group.opaque_depth_texture]
        ++ ts.map (fun r => Cmd.draw r.id)
        ++ [Cmd.submit, Cmd.present]) := by
  unfold render_trace RenderManager.render
  cases hbg : s.scene_bind_group.bind_group <;>
    simp [hop, htr, hbg, SceneBindGroup.bind_group', SceneBindGroup.update_uniform,
      SceneBindGroup.create_bind_group]

/-- C1 witness: one frame of `mgr2` (one OPAQUE pass `p1`, one TRANSPARENT
pass `p2`) records clear, draw 1, the two snapshot copies, draw 2, submit,
present — in that order. -/
theorem c1_frame_command_order_witness :
    render_trace F0 true mgr2 tm0 =
      some ([Cmd.clear]
        ++ [p1].map (fun r => Cmd.draw r.id)
        ++ [Cmd.copy_textures mgr2.surface_texture mgr2.scene_bind_group.opaque_texture,
            Cmd.copy_textures mgr2.depth_texture mgr2.scene_bind_group.opaque_depth_texture]
        ++ [p2].map (fun r => Cmd.draw r.id)
        ++ [Cmd.submit, Cmd.present]) :=
  c1_frame_command_order F0 tm0 mgr2 [p1] [p2] (by decide) (by decide)

/-- C9: the stage buckets are total.  `RenderManager::new` creates both
the OPAQUE and the TRANSPARENT bucket; `add_renderer` never panics and
preserves both buckets; and whenever both buckets exist, `render` never
panics on its stage-bucket `unwrap`s (in the model: never returns `none`),
whatever passes are registered — in particular a stage with zero
registered passes renders as a valid no-op. -/
theorem c9_stage_buckets_never_panic :
    (∀ (st : RenderSettings) (fmt : TextureFormat) (w h : ℕ),
        bucketsOk (RenderManager.new st fmt w h)) ∧
      (∀ (s : RenderManager) (r : Pass), (s.add_renderer r).isSome = true) ∧
      (∀ (s s' : RenderManager) (r : Pass),
        s.add_renderer r = some s' → bucketsOk s → bucketsOk s') ∧
      (∀ (F : FloatOps) (a : Bool) (s : RenderManager) (tm : TimeManager),
        bucketsOk s → (RenderManager.render F a s tm).isSome = true) := by
  refine ⟨?_, ?_, ?_, ?_⟩
  · intro st fmt w h
    exact ⟨rfl, rfl⟩
  · intro s r
    unfold RenderManager.add_renderer
    by_cases h : s.renderers_by_stage r.stage = none
    · simp [h]
    · obtain ⟨v, hv⟩ := Option.ne_none_iff_exists'.mp h
      simp [h, hv]
  · intro s s' r hadd hok
    obtain ⟨hok1, hok2⟩ := hok
    simp only [RenderManager.add_renderer] at hadd
    split at hadd
    · exact absurd hadd (by simp)
    · rename_i v heq
      obtain rfl : _ = s' := Option.some.inj hadd
      constructor
      · by_cases h1 : RenderStage.OPAQUE = r.stage <;>
          by_cases h2 : s.renderers_by_stage r.stage = none <;>
          simp [h1, h2, hok1]
      · by_cases h1 : RenderStage.TRANSPARENT = r.stage <;>
          by_cases h2 : s.renderers_by_stage r.stage = none <;>
          simp [h1, h2, hok2]
  · intro F a s tm ⟨h1, h2⟩
    unfold RenderManager.render
    cases a
    · simp
    · obtain ⟨os, hos⟩ := Option.isSome_iff_exists.mp h1
      obtain ⟨ts, hts⟩ := Option.isSome_iff_exists.mp h2
      simp [hos, hts]

/-- C9 witness: `mgr800` (fresh from `RenderManager.new`, zero passes in
both stages) has both buckets, and a frame on it renders without panic. -/
theorem c9_stage_buckets_never_panic_witness :
    bucketsOk mgr800 ∧ (RenderManager.render F0 true mgr800 tm0).isSome = true :=
  ⟨c9_stage_buckets_never_panic.1 RenderSettings.default TextureFormat.Bgra8UnormSrgb
      800 600,
    c9_stage_buckets_never_panic.2.2.2 F0 true mgr800 tm0
      (c9_stage_buckets_never_panic.1 RenderSettings.default TextureFormat.Bgra8UnormSrgb
        800 600)⟩

/-- The camera state after the getter chain of `render`
(`view_proj_matrix()` then `look_dir()`) is the refreshed camera. -/
theorem Camera.read_chain (F : FloatOps) (c : Camera) :
    (Camera.look_dir' F (Camera.view_proj_matrix' F c).2).2 = c.refresh F := by
  unfold Camera.look_dir' Camera.view_proj_matrix'
  simp [Camera.refresh_idem]

/-- C2 amended: on every call to `render` that succeeds in acquiring a
surface image (and finds its stage buckets), the Scene Uniform is
rewritten — before any pass runs (the bind group the passes read is built
from the already-updated record) — with the camera's current
view-projection matrix, look direction, position, near and far planes, and
the accumulated time; the surface-size field is NOT rewritten with the
current surface dimensions: it keeps its previous value, being written
only by `handle_resize`. -/
theorem c2_render_uniform_amended (F : FloatOps) (s : RenderManager) (tm : TimeManager)
    (h : bucketsOk s) :
    rendered_uniform F true s tm =
      some { s.scene_bind_group.uniform with
        view_proj_matrix := (Camera.view_proj_matrix' F s.camera).1
        camera_dir := (Camera.look_dir' F (Camera.view_proj_matrix' F s.camera).2).1
        camera_pos := s.camera.position
        camera_near := s.camera.near_plane
        camera_far := s.camera.far_plane
        time := s.scene_bind_group.uniform.time + tm.delta } := by
  obtain ⟨h1, h2⟩ := h
  obtain ⟨os, hos⟩ := Option.isSome_iff_exists.mp h1
  obtain ⟨ts, hts⟩ := Option.isSome_iff_exists.mp h2
  unfold rendered_uniform RenderManager.render
  cases hbg : s.scene_bind_group.bind_group <;>
    simp [hos, hts, hbg, SceneBindGroup.bind_group', SceneBindGroup.update_uniform,
      SceneBindGroup.create_bind_group, Camera.read_chain,
      (Camera.refresh_raw F s.camera).1, (Camera.refresh_raw F s.camera).2.2.2.2.1,
      (Camera.refresh_raw F s.camera).2.2.2.2.2]

/-- C2 witness: the amended rewrite on a concrete frame of `mgr800`. -/
theorem c2_render_uniform_amended_witness :
    rendered_uniform F0 true mgr800 tm0 =
      some { mgr800.scene_bind_group.uniform with
        view_proj_matrix := (Camera.view_proj_matrix' F0 mgr800.camera).1
        camera_dir := (Camera.look_dir' F0 (Camera.view_proj_matrix' F0 mgr800.camera).2).1
        camera_pos := mgr800.camera.position
        camera_near := mgr800.camera.near_plane
        camera_far := mgr800.camera.far_plane
        time := mgr800.scene_bind_group.uniform.time + tm0.delta } :=
  c2_render_uniform_amended F0 mgr800 tm0 ⟨rfl, rfl⟩

/-- C2 counterexample: `mgr800`'s surface is 800×600 (as configured at
construction), yet the Scene Uniform after a successful `render` still
carries surface size (0,0) — its constructed default, never rewritten by
`render` — so the frame's uniform is not rewritten with the current
surface dimensions as the claim states. -/
theorem c2_surface_size_not_rewritten :
    mgr800.surface_config.width = 800 ∧ mgr800.surface_config.height = 600 ∧
      (rendered_uniform F0 true mgr800 tm0).map SceneUniform.surface_size =
        some (Vec2.mk 0 0) ∧
      Vec2.mk 0 0 ≠ Vec2.mk 800 600 := by
  refine ⟨by decide, by decide, by decide, ?_⟩
  intro h
  have hx := congrArg Vec2.x h
  norm_num at hx

/-- C3 amended: for any camera state, `view_proj_matrix()` called twice in
a row with no intervening mutation returns bit-identical results and
leaves the state fixed (cache correctness); and after any single setter
call the next read recomputes the matrix from the newly stored parameters
(staleness correctness) — but the recomputed matrix need not DIFFER just
because the stored value changed (e.g. replacing the rotation quaternion
by its negation stores a different value yet yields the same matrix, see
the counterexample). -/
theorem c3_view_proj_cache_amended (F : FloatOps) (c : Camera) :
    ((Camera.view_proj_matrix' F (Camera.view_proj_matrix' F c).2).1 =
        (Camera.view_proj_matrix' F c).1 ∧
      (Camera.view_proj_matrix' F (Camera.view_proj_matrix' F c).2).2 =
        (Camera.view_proj_matrix' F c).2) ∧
      (∀ p, (Camera.view_proj_matrix' F (c.set_position p)).1 =
        ((c.set_position p).update_values F).view_proj_matrix) ∧
      (∀ q, (Camera.view_proj_matrix' F (c.set_rotation q)).1 =
        ((c.set_rotation q).update_values F).view_proj_matrix) ∧
      (∀ v, (Camera.view_proj_matrix' F (c.set_fov v)).1 =
        ((c.set_fov v).update_values F).view_proj_matrix) ∧
      (∀ ar, (Camera.view_proj_matrix' F (c.set_aspect_ratio ar)).1 =
        ((c.set_aspect_ratio ar).update_values F).view_proj_matrix) ∧
      (∀ n, (Camera.view_proj_matrix' F (c.set_near_plane n)).1 =
        ((c.set_near_plane n).update_values F).view_proj_matrix) ∧
      (∀ fa, (Camera.view_proj_matrix' F (c.set_far_plane fa)).1 =
        ((c.set_far_plane fa).update_values F).view_proj_matrix) := by
  refine ⟨⟨?_, ?_⟩, ?_, ?_, ?_, ?_, ?_, ?_⟩
  · simp [Camera.view_proj_matrix', Camera.refresh_idem]
  · simp [Camera.view_proj_matrix', Camera.refresh_idem]
  all_goals
    intro v
    simp [Camera.view_proj_matrix', Camera.refresh, Camera.set_position,
      Camera.set_rotation, Camera.set_fov, Camera.set_aspect_ratio,
      Camera.set_near_plane, Camera.set_far_plane, Camera.update_values]

/-- C3 counterexample: `cam0_read` is a clean (cached) camera with the
identity rotation quaternion.  Setting the rotation to the negated
quaternion (0,0,0,-1) changes the stored parameter value, yet the next
`view_proj_matrix()` read returns exactly the same matrix — a quaternion
and its negation encode the same rotation — so "differs after any single
setter call that changes the stored value of that parameter" is false. -/
theorem c3_staleness_counterexample :
    cam0_read.is_dirty = false ∧
      (cam0_read.set_rotation (Quat.mk 0 0 0 (-1))).rotation ≠ cam0_read.rotation ∧
      (Camera.view_proj_matrix' F0 (cam0_read.set_rotation (Quat.mk 0 0 0 (-1)))).1 =
        (Camera.view_proj_matrix' F0 cam0_read).1 := by
  refine ⟨by decide, ?_, ?_⟩
  · intro h
    have hw := congrArg Quat.w h
    simp [cam0_read, cam0, Camera.new, Camera.view_proj_matrix', Camera.refresh,
      Camera.update_values, Camera.set_rotation, Quat.IDENTITY] at hw
    norm_num at hw
  · simp [cam0_read, cam0, Camera.new, Camera.view_proj_matrix', Camera.refresh,
      Camera.update_values, Camera.set_rotation, Quat.IDENTITY, Mat4.perspective_lh,
      Mat4.from_rotation_translation, Mat4.inverse, Mat4.det, det3, Mat4.mul,
      Mat4.mul_vec4, Vec4.add, Vec4.smul, Quat.mul_vec3, Vec3.dot, Vec3.cross,
      Vec3.smul, Vec3.add, Vec3.Z, Vec3.ZERO, F0, FloatOps.toRadians, Mat4.IDENTITY]

end TerrainRenderer
